import Mathlib

/-!
Verification development for the supplied gammapy documentation sources:
`docs/userguide/howto.rst` (a how-to/FAQ reference page, 19 accordion
entries, two literal code blocks), `docs/tutorials/api/model_management.ipynb`
(two concatenated tutorial documents: the model-management tutorial and the
makers data-reduction tutorial) and
`docs/tutorials/analysis/1D/sed_fitting.ipynb` (the flux-point fitting
tutorial).  The supplied files are documentation and example notebooks, so
the shallow embedding below is an inventory of their content: each source
file, each code block with the kinds of Python constructs it contains, each
library call site, each consumed file path, transcribed from the files with
provenance (document, cell index).  Library behaviour that the claims refer
to but whose implementation is not among the supplied files (SafeMaskMaker,
Dataset.stat_sum, Models.select) is modelled from the statements the
supplied documentation itself makes, in clearly marked definitions.
-/

namespace GammapyDocs

/-- Kind of a supplied source file. -/
inductive FileKind
  | rstDoc
  | notebook
deriving DecidableEq

/-- The tutorial documents / pages contained in the supplied files.
`model_management.ipynb` holds two concatenated documents: the
model-management tutorial and the makers data-reduction tutorial. -/
inductive Document
  | howtoPage
  | modelManagementTutorial
  | makersTutorial
  | sedFittingTutorial
deriving DecidableEq

/-- A supplied source file: its path under `docs/` and its kind, with the
documents it contains. -/
structure SourceFile where
  path : String
  kind : FileKind
  documents : List Document
deriving DecidableEq

/-- The three supplied source files. -/
def sourceFiles : List SourceFile :=
  [⟨"docs/userguide/howto.rst", .rstDoc, [.howtoPage]⟩,
   ⟨"docs/tutorials/api/model_management.ipynb", .notebook,
     [.modelManagementTutorial, .makersTutorial]⟩,
   ⟨"docs/tutorials/analysis/1D/sed_fitting.ipynb", .notebook,
     [.sedFittingTutorial]⟩]

/-- Kinds of Python constructs occurring in the supplied code blocks.  The
first group are the glue-level constructs that actually occur; the second
group (function/class/lambda definitions, try/except, raise, async,
threading) are the constructs whose absence several claims assert. -/
inductive Construct
  | importStmt
  | magicCommand
  | assignOrCall
  | forLoop
  | ifStmt
  | withBlock
  | listComp
  | helpCall
  | defFun
  | defClass
  | lambdaFun
  | tryExcept
  | raiseStmt
  | asyncAwait
  | threadingUse
deriving DecidableEq

/-- A code block of the supplied material: the document it belongs to, its
cell index within that document (for the rst page: the index of the literal
code block), and the kinds of constructs it contains.  Comment-only or
empty cells have an empty construct list. -/
structure CodeBlock where
  doc : Document
  cellIndex : Nat
  constructs : List Construct
deriving DecidableEq

set_option maxHeartbeats 1600000 in
/-- Every code block of the supplied files, transcribed cell by cell.
The how-to page has two literal code blocks: the flux-point plotting
example (entry "Choose units for plotting") and the warning-suppression
example (entry "Suppress warnings"). -/
def codeBlocks : List CodeBlock :=
  [ -- howto.rst literal code blocks
   ⟨.howtoPage, 0, [.importStmt, .assignOrCall]⟩,
   ⟨.howtoPage, 1, [.importStmt, .withBlock, .assignOrCall]⟩,
   -- model-management tutorial (first document of model_management.ipynb)
   ⟨.modelManagementTutorial, 1, [.magicCommand, .importStmt]⟩,
   ⟨.modelManagementTutorial, 2, [.importStmt]⟩,
   ⟨.modelManagementTutorial, 3, [.importStmt]⟩,
   ⟨.modelManagementTutorial, 5, [.assignOrCall]⟩,
   ⟨.modelManagementTutorial, 7, [.assignOrCall]⟩,
   ⟨.modelManagementTutorial, 8, [.assignOrCall]⟩,
   ⟨.modelManagementTutorial, 9, [.assignOrCall]⟩,
   ⟨.modelManagementTutorial, 13, [.assignOrCall]⟩,
   ⟨.modelManagementTutorial, 14, [.assignOrCall]⟩,
   ⟨.modelManagementTutorial, 15, [.assignOrCall]⟩,
   ⟨.modelManagementTutorial, 16, [.assignOrCall]⟩,
   ⟨.modelManagementTutorial, 17, [.assignOrCall]⟩,
   ⟨.modelManagementTutorial, 18, [.assignOrCall]⟩,
   ⟨.modelManagementTutorial, 20, [.assignOrCall]⟩,
   ⟨.modelManagementTutorial, 21, [.assignOrCall]⟩,
   ⟨.modelManagementTutorial, 22, [.assignOrCall]⟩,
   ⟨.modelManagementTutorial, 24, []⟩,
   ⟨.modelManagementTutorial, 26, [.importStmt, .assignOrCall]⟩,
   ⟨.modelManagementTutorial, 28, [.assignOrCall, .listComp, .ifStmt]⟩,
   ⟨.modelManagementTutorial, 29, [.assignOrCall]⟩,
   ⟨.modelManagementTutorial, 31, [.assignOrCall]⟩,
   ⟨.modelManagementTutorial, 32, [.assignOrCall]⟩,
   ⟨.modelManagementTutorial, 34, [.forLoop, .ifStmt, .assignOrCall]⟩,
   ⟨.modelManagementTutorial, 35, [.assignOrCall]⟩,
   ⟨.modelManagementTutorial, 37, [.assignOrCall]⟩,
   ⟨.modelManagementTutorial, 40, [.assignOrCall]⟩,
   ⟨.modelManagementTutorial, 42, [.assignOrCall]⟩,
   ⟨.modelManagementTutorial, 43, [.assignOrCall]⟩,
   ⟨.modelManagementTutorial, 45, [.assignOrCall]⟩,
   ⟨.modelManagementTutorial, 47, [.assignOrCall]⟩,
   ⟨.modelManagementTutorial, 50, []⟩,
   ⟨.modelManagementTutorial, 51, [.assignOrCall]⟩,
   ⟨.modelManagementTutorial, 52, [.assignOrCall]⟩,
   ⟨.modelManagementTutorial, 54, [.assignOrCall]⟩,
   ⟨.modelManagementTutorial, 56, [.assignOrCall, .forLoop]⟩,
   ⟨.modelManagementTutorial, 58, [.assignOrCall]⟩,
   ⟨.modelManagementTutorial, 59, [.assignOrCall]⟩,
   ⟨.modelManagementTutorial, 60, [.assignOrCall]⟩,
   ⟨.modelManagementTutorial, 61, [.assignOrCall]⟩,
   ⟨.modelManagementTutorial, 62, [.assignOrCall]⟩,
   ⟨.modelManagementTutorial, 64, [.assignOrCall]⟩,
   ⟨.modelManagementTutorial, 66, [.assignOrCall]⟩,
   ⟨.modelManagementTutorial, 67, [.assignOrCall]⟩,
   ⟨.modelManagementTutorial, 69, [.assignOrCall]⟩,
   ⟨.modelManagementTutorial, 70, [.assignOrCall]⟩,
   ⟨.modelManagementTutorial, 71, [.assignOrCall]⟩,
   ⟨.modelManagementTutorial, 73, [.helpCall]⟩,
   ⟨.modelManagementTutorial, 76, [.assignOrCall]⟩,
   ⟨.modelManagementTutorial, 77, [.assignOrCall]⟩,
   ⟨.modelManagementTutorial, 78, [.assignOrCall]⟩,
   ⟨.modelManagementTutorial, 79, [.assignOrCall]⟩,
   -- makers data-reduction tutorial (second document of model_management.ipynb)
   ⟨.makersTutorial, 1, [.importStmt]⟩,
   ⟨.makersTutorial, 3, [.assignOrCall]⟩,
   ⟨.makersTutorial, 5, [.assignOrCall]⟩,
   ⟨.makersTutorial, 7, [.helpCall]⟩,
   ⟨.makersTutorial, 9, [.assignOrCall]⟩,
   ⟨.makersTutorial, 11, [.assignOrCall]⟩,
   ⟨.makersTutorial, 13, [.assignOrCall]⟩,
   ⟨.makersTutorial, 15, [.assignOrCall, .forLoop]⟩,
   ⟨.makersTutorial, 17, [.assignOrCall]⟩,
   ⟨.makersTutorial, 19, [.assignOrCall, .forLoop]⟩,
   ⟨.makersTutorial, 20, []⟩,
   -- flux-point fitting tutorial (sed_fitting.ipynb)
   ⟨.sedFittingTutorial, 2, [.magicCommand, .importStmt]⟩,
   ⟨.sedFittingTutorial, 3, [.importStmt]⟩,
   ⟨.sedFittingTutorial, 5, [.assignOrCall]⟩,
   ⟨.sedFittingTutorial, 6, [.assignOrCall]⟩,
   ⟨.sedFittingTutorial, 8, [.assignOrCall]⟩,
   ⟨.sedFittingTutorial, 9, [.assignOrCall]⟩,
   ⟨.sedFittingTutorial, 10, [.assignOrCall]⟩,
   ⟨.sedFittingTutorial, 12, [.assignOrCall]⟩,
   ⟨.sedFittingTutorial, 14, [.assignOrCall]⟩,
   ⟨.sedFittingTutorial, 15, [.assignOrCall]⟩,
   ⟨.sedFittingTutorial, 17, [.assignOrCall]⟩,
   ⟨.sedFittingTutorial, 18, [.assignOrCall]⟩,
   ⟨.sedFittingTutorial, 20, [.assignOrCall, .forLoop]⟩,
   ⟨.sedFittingTutorial, 22, [.assignOrCall]⟩,
   ⟨.sedFittingTutorial, 24, [.assignOrCall]⟩,
   ⟨.sedFittingTutorial, 26, [.assignOrCall, .forLoop]⟩,
   ⟨.sedFittingTutorial, 28, [.assignOrCall]⟩,
   ⟨.sedFittingTutorial, 29, [.assignOrCall]⟩,
   ⟨.sedFittingTutorial, 30, [.assignOrCall, .forLoop]⟩,
   ⟨.sedFittingTutorial, 33, []⟩]

/-- Whether a code block defines a callable of its own (a function, class
or lambda definition). -/
def definesCallable (b : CodeBlock) : Bool :=
  b.constructs.contains .defFun || b.constructs.contains .defClass ||
    b.constructs.contains .lambdaFun

/-- Whether a code block contains error-handling or recovery constructs. -/
def hasErrorHandling (b : CodeBlock) : Bool :=
  b.constructs.contains .tryExcept || b.constructs.contains .raiseStmt

/-- Whether a code block contains a concurrency construct (async/await or
thread use). -/
def usesConcurrencyConstruct (b : CodeBlock) : Bool :=
  b.constructs.contains .asyncAwait || b.constructs.contains .threadingUse

/-- The categories of operation shown in the supplied material. -/
inductive Operation
  | readIntoDataStore
  | createEmptyMapDataset
  | runMapDatasetMaker
  | runSafeMaskMaker
  | runBackgroundMaker
  | runFitOnFluxPoints
  | serializeModels
deriving DecidableEq

/-- A call site in the supplied code: the operation it performs, the called
method of the external library, the library module defining it, and its
location. -/
structure ApiCallSite where
  op : Operation
  callee : String
  library : String
  doc : Document
  cellIndex : Nat
deriving DecidableEq

/-- The modules of the external library (gammapy) whose public objects the
supplied code calls for the listed operations. -/
def externalLibraryModules : List String :=
  ["gammapy.data", "gammapy.datasets", "gammapy.makers",
   "gammapy.modeling", "gammapy.modeling.models"]

set_option maxHeartbeats 1600000 in
/-- The call sites of the listed operations, transcribed from the supplied
code cells. -/
def apiCallSites : List ApiCallSite :=
  [⟨.readIntoDataStore, "DataStore.from_dir", "gammapy.data", .makersTutorial, 9⟩,
   ⟨.readIntoDataStore, "DataStore.from_dir", "gammapy.data", .makersTutorial, 15⟩,
   ⟨.createEmptyMapDataset, "MapDataset.create", "gammapy.datasets", .makersTutorial, 3⟩,
   ⟨.createEmptyMapDataset, "MapDataset.create", "gammapy.datasets", .makersTutorial, 5⟩,
   ⟨.createEmptyMapDataset, "MapDataset.create", "gammapy.datasets", .makersTutorial, 15⟩,
   ⟨.runMapDatasetMaker, "MapDatasetMaker.run", "gammapy.makers", .makersTutorial, 9⟩,
   ⟨.runMapDatasetMaker, "MapDatasetMaker.run", "gammapy.makers", .makersTutorial, 11⟩,
   ⟨.runMapDatasetMaker, "MapDatasetMaker.run", "gammapy.makers", .makersTutorial, 15⟩,
   ⟨.runSafeMaskMaker, "SafeMaskMaker.run", "gammapy.makers", .makersTutorial, 11⟩,
   ⟨.runSafeMaskMaker, "SafeMaskMaker.run", "gammapy.makers", .makersTutorial, 15⟩,
   ⟨.runSafeMaskMaker, "SafeMaskMaker.run", "gammapy.makers", .makersTutorial, 19⟩,
   ⟨.runBackgroundMaker, "FoVBackgroundMaker.run", "gammapy.makers", .makersTutorial, 13⟩,
   ⟨.runBackgroundMaker, "FoVBackgroundMaker.run", "gammapy.makers", .makersTutorial, 15⟩,
   ⟨.runBackgroundMaker, "ReflectedRegionsBackgroundMaker.run", "gammapy.makers", .makersTutorial, 19⟩,
   ⟨.runFitOnFluxPoints, "Fit.run", "gammapy.modeling", .sedFittingTutorial, 15⟩,
   ⟨.runFitOnFluxPoints, "Fit.run", "gammapy.modeling", .sedFittingTutorial, 24⟩,
   ⟨.runFitOnFluxPoints, "Fit.run", "gammapy.modeling", .sedFittingTutorial, 29⟩,
   ⟨.serializeModels, "Models.write", "gammapy.modeling.models", .modelManagementTutorial, 76⟩,
   ⟨.serializeModels, "Datasets.write", "gammapy.datasets", .modelManagementTutorial, 77⟩,
   ⟨.serializeModels, "Models.read", "gammapy.modeling.models", .modelManagementTutorial, 78⟩,
   ⟨.serializeModels, "Datasets.read", "gammapy.datasets", .modelManagementTutorial, 79⟩]

/-- All seven operation categories. -/
def operations : List Operation :=
  [.readIntoDataStore, .createEmptyMapDataset, .runMapDatasetMaker,
   .runSafeMaskMaker, .runBackgroundMaker, .runFitOnFluxPoints,
   .serializeModels]

/-- Format of a consumed data file. -/
inductive FileFormat
  | fitsBased
  | yamlBased
  | plainText
deriving DecidableEq

/-- A file path consumed by a library call in the supplied code, with its
format.  The DL3 directory passed to DataStore.from_dir holds FITS-based
instrument data files (DL3 per the glossary), hence fitsBased; the
isotropic diffuse model file is a plain-text two-column table. -/
structure ConsumedFilePath where
  path : String
  format : FileFormat
  consumingCall : String
  doc : Document
  cellIndex : Nat
deriving DecidableEq

set_option maxHeartbeats 1600000 in
/-- Every file path consumed by a library call in the supplied files. -/
def consumedFilePaths : List ConsumedFilePath :=
  [⟨"$GAMMAPY_DATA/hawc_crab/HAWC19_flux_points.fits", .fitsBased,
     "FluxPoints.read", .howtoPage, 0⟩,
   ⟨"$GAMMAPY_DATA/fermi-3fhl-gc/fermi-3fhl-gc.fits.gz", .fitsBased,
     "MapDataset.read", .modelManagementTutorial, 5⟩,
   ⟨"$GAMMAPY_DATA/cta-1dc-gc/cta-1dc-gc.fits.gz", .fitsBased,
     "MapDataset.read", .modelManagementTutorial, 5⟩,
   ⟨"$GAMMAPY_DATA/fermi_3fhl/iso_P8R2_SOURCE_V6_v06.txt", .plainText,
     "create_fermi_isotropic_diffuse_model", .modelManagementTutorial, 15⟩,
   ⟨"$GAMMAPY_DATA/fermi-3fhl-gc/gll_iem_v06_gc.fits.gz", .fitsBased,
     "Map.read", .modelManagementTutorial, 20⟩,
   ⟨"3fhl_models.yaml", .yamlBased, "Models.write", .modelManagementTutorial, 76⟩,
   ⟨"datasets-gc.yaml", .yamlBased, "Datasets.write", .modelManagementTutorial, 77⟩,
   ⟨"3fhl_models.yaml", .yamlBased, "Models.read", .modelManagementTutorial, 78⟩,
   ⟨"datasets-gc.yaml", .yamlBased, "Datasets.read", .modelManagementTutorial, 79⟩,
   ⟨"$GAMMAPY_DATA/hess-dl3-dr1", .fitsBased, "DataStore.from_dir", .makersTutorial, 9⟩,
   ⟨"$GAMMAPY_DATA/hess-dl3-dr1", .fitsBased, "DataStore.from_dir", .makersTutorial, 15⟩]

/-- The consumed-path entry for the Fermi isotropic diffuse model file, a
plain-text table, consumed in the model-management tutorial. -/
def isoDiffuseTxtPath : ConsumedFilePath :=
  ⟨"$GAMMAPY_DATA/fermi_3fhl/iso_P8R2_SOURCE_V6_v06.txt", .plainText,
    "create_fermi_isotropic_diffuse_model", .modelManagementTutorial, 15⟩

/-- The format restriction asserted by the external-interface claim: every
consumed file is FITS-based or YAML-based. -/
def claimedFormatOK (p : ConsumedFilePath) : Bool :=
  p.format == .fitsBased || p.format == .yamlBased

/-- A mention of a parallel-worker count argument in the supplied code. -/
structure ParallelismMention where
  doc : Document
  cellIndex : Nat
  keyword : String
  callee : String
deriving DecidableEq

/-- The only parallel-worker mention in the supplied files: the n_jobs
keyword passed to DatasetsMaker in the makers tutorial. -/
def parallelismMentions : List ParallelismMention :=
  [⟨.makersTutorial, 17, "n_jobs", "DatasetsMaker"⟩]

/-- A warning suppression shown in a code sample: the warning type, the
module defining it, and whether the suppression is scoped to a
warnings.catch_warnings context. -/
structure WarningSuppression where
  warningType : String
  definingModule : String
  scopedToCatchWarnings : Bool
deriving DecidableEq

/-- A FAQ entry of the how-to page: its accordion id, its title, and the
warning suppression its code shows, if any. -/
structure FaqEntry where
  entryId : String
  title : String
  suppression : Option WarningSuppression
deriving DecidableEq

set_option maxHeartbeats 1600000 in
/-- The nineteen FAQ entries of the how-to page, in order. -/
def faqEntries : List FaqEntry :=
  [⟨"collapseOne", "Spell and pronounce Gammapy", none⟩,
   ⟨"collapseTwo", "Access IACT DL3 data", none⟩,
   ⟨"collapseThree", "Select observations", none⟩,
   ⟨"collapseFour", "Make an on-axis equivalent livetime map", none⟩,
   ⟨"collapseFive", "Check IRFs", none⟩,
   ⟨"collapseSix", "Model 2D images", none⟩,
   ⟨"collapseSeven", "Extract 1D spectra", none⟩,
   ⟨"collapseEight", "Extract a lightcurve", none⟩,
   ⟨"collapseNine", "Choose units for plotting", none⟩,
   ⟨"collapseTen", "Compute source significance", none⟩,
   ⟨"collapseEleven", "Compute cumulative significance", none⟩,
   ⟨"collapseTwelve", "Detect sources in a map", none⟩,
   ⟨"collapseThirteen", "Astrophysical source modeling", none⟩,
   ⟨"collapseFourteen", "Implement a custom model", none⟩,
   ⟨"collapseFifteen", "Energy dependent spatial models", none⟩,
   ⟨"collapseSixteen", "Reduce memory budget for large datasets", none⟩,
   ⟨"collapseSeventeen", "Copy part of a data store", none⟩,
   ⟨"collapseEighteen", "Interpolate onto a different geometry", none⟩,
   ⟨"collapseNineteen", "Suppress warnings",
     some ⟨"VerifyWarning", "astropy.io.fits.verify", true⟩⟩]

/-- An appearance of flux points in the supplied material: where they come
from and how they are used. -/
structure FluxPointsAppearance where
  doc : Document
  cellIndex : Nat
  origin : String
  fromCatalogOrFile : Bool
  wrappedInFluxPointsDataset : Bool
  passedToFitter : Bool
  computedLocally : Bool
deriving DecidableEq

set_option maxHeartbeats 1600000 in
/-- Every appearance of flux points in the supplied files.  The three
catalog sources of the sed-fitting tutorial are wrapped in a
FluxPointsDataset (cells 8, 9, 10) and passed to Fit.run (cell 15); the
how-to entry "Choose units for plotting" reads flux points from a FITS
file and only plots them. -/
def fluxPointsAppearances : List FluxPointsAppearance :=
  [⟨.sedFittingTutorial, 8, "gamma-cat catalog source HESS J1507-622",
     true, true, true, false⟩,
   ⟨.sedFittingTutorial, 9, "3FGL catalog source 3FGL J1506.6-6219",
     true, true, true, false⟩,
   ⟨.sedFittingTutorial, 10, "3FHL catalog source 3FHL J1507.9-6228e",
     true, true, true, false⟩,
   ⟨.howtoPage, 0, "$GAMMAPY_DATA/hawc_crab/HAWC19_flux_points.fits",
     true, false, false, false⟩]

/-- The how-to flux-points appearance: read from a FITS file, only
plotted. -/
def howtoFluxPointsAppearance : FluxPointsAppearance :=
  ⟨.howtoPage, 0, "$GAMMAPY_DATA/hawc_crab/HAWC19_flux_points.fits",
    true, false, false, false⟩

/-- The consumption pattern the flux-points claim asserts of every
appearance: loaded from a catalog or file, wrapped in a FluxPointsDataset,
passed to the external fitter, never computed locally. -/
def claimedFluxPointsUse (a : FluxPointsAppearance) : Bool :=
  a.fromCatalogOrFile && a.wrappedInFluxPointsDataset && a.passedToFitter &&
    !a.computedLocally

/-- Modelled from the spec: the MapDataset container of the external
library (gammapy.datasets.MapDataset), whose implementation is not among
the supplied files.  The makers tutorial describes it as bundling the
counts, exposure, background and IRF (psf, edisp) maps, and mask_safe as a
Map with bool data type.  Map data is abstracted to arrays of pixel
values. -/
structure MapDatasetM where
  counts : List ℤ
  exposure : List ℚ
  background : List ℚ
  psf : List ℚ
  edisp : List ℚ
  mask_safe : Option (List Bool)
deriving DecidableEq

/-- Modelled from the spec: an observation handed to a maker, abstracted
to its identifier. -/
structure ObsM where
  obs_id : ℕ
deriving DecidableEq

/-- Modelled from the spec: the SafeMaskMaker of the external library
(gammapy.makers.SafeMaskMaker), whose implementation is not among the
supplied files.  The makers tutorial states that the different criteria
are given by the methods argument and that multiple methods can be
combined; each method contributes a boolean mask, abstracted here as the
methodMask field. -/
structure SafeMaskMakerM where
  methods : List String
  methodMask : String → MapDatasetM → ObsM → List Bool

/-- Elementwise conjunction of two boolean masks. -/
def andMasks (m1 m2 : List Bool) : List Bool :=
  List.zipWith (fun a b => a && b) m1 m2

/-- The combined safe mask of a SafeMaskMaker: the elementwise conjunction
of the masks of its methods. -/
def SafeMaskMakerM.mask (mk : SafeMaskMakerM) (d : MapDatasetM) (o : ObsM) :
    List Bool :=
  (mk.methods.map (fun meth => mk.methodMask meth d o)).foldl andMasks
    (List.replicate d.counts.length true)

/-- Modelled from the spec: SafeMaskMaker.run, whose implementation is not
among the supplied files.  The makers tutorial states that the
SafeMaskMaker does not modify any data, but only defines the
MapDataset.mask_safe attribute; run therefore sets mask_safe to the
combined method mask and leaves every other field of the dataset as it
is. -/
def SafeMaskMakerM.run (mk : SafeMaskMakerM) (d : MapDatasetM) (o : ObsM) :
    MapDatasetM :=
  { d with mask_safe := some (mk.mask d o) }

/-- Modelled from the spec: the fit statistic Dataset.stat_sum of the
external library, whose implementation is not among the supplied files.
The how-to entry "Compute source significance" states that in Gammapy the
fit statistic is defined as S = -2 * log(L) for likelihood L. -/
noncomputable def stat_sum (L : ℝ) : ℝ := -2 * Real.log L

/-- Modelled from the spec: a member of a Models collection, abstracted to
the two attributes the selection conditions inspect: its name and its
datasets_names (none meaning the model applies to every dataset, as for
models whose datasets_names was never restricted). -/
structure ModelM where
  name : String
  datasets_names : Option (List String)
deriving DecidableEq

/-- Conditions passed to Models.select / Models.selection_mask, as used in
the model-management tutorial: a dataset name and a name substring, each
optional. -/
structure SelectCond where
  datasets_names : Option String
  name_substring : Option String
deriving DecidableEq

/-- Whether the second character list occurs at the head of the first. -/
def matchesHead : List Char → List Char → Bool
  | _, [] => true
  | [], _ :: _ => false
  | c :: cs, d :: ds => c == d && matchesHead cs ds

/-- Whether the second character list occurs anywhere in the first. -/
def occursIn : List Char → List Char → Bool
  | [], sub => matchesHead [] sub
  | c :: cs, sub => matchesHead (c :: cs) sub || occursIn cs sub

/-- Whether the second string occurs as a substring of the first. -/
def strContainsSub (s sub : String) : Bool :=
  occursIn s.toList sub.toList

/-- Whether a model satisfies the datasets_names condition: no condition
selects everything; otherwise the model must apply to the named dataset
(models with unrestricted datasets_names apply to every dataset). -/
def matchesDatasets (m : ModelM) (c : Option String) : Bool :=
  match c with
  | none => true
  | some d =>
    match m.datasets_names with
    | none => true
    | some ds => ds.contains d

/-- Whether a model satisfies the name_substring condition. -/
def matchesNameSub (m : ModelM) (c : Option String) : Bool :=
  match c with
  | none => true
  | some sub => strContainsSub m.name sub

/-- Whether a model satisfies every condition of a selection. -/
def modelMatches (m : ModelM) (c : SelectCond) : Bool :=
  matchesDatasets m c.datasets_names && matchesNameSub m c.name_substring

/-- Modelled from the spec: Models.selection_mask of the external library,
whose implementation is not among the supplied files.  The
model-management tutorial states that it generates a boolean array that
can be used for selection; per-condition masks are combined elementwise
with AND, matching the tutorial statement that Models.select combines the
different conditions with an AND operator. -/
def selection_mask (ms : List ModelM) (c : SelectCond) : List Bool :=
  List.zipWith (fun a b => a && b)
    (ms.map (fun m => matchesDatasets m c.datasets_names))
    (ms.map (fun m => matchesNameSub m c.name_substring))

/-- Indexing a Models collection with a boolean array, keeping the models
at true positions (the models_3fhl[selection_mask] operation of the
tutorial). -/
def maskSelect (ms : List ModelM) (mask : List Bool) : List ModelM :=
  ((ms.zip mask).filter (fun p => p.2)).map (fun p => p.1)

/-- Modelled from the spec: Models.select of the external library, whose
implementation is not among the supplied files.  The model-management
tutorial states that it selects all models satisfying a list of
conditions, combining the different conditions with an AND operator;
select indexes the collection with its selection mask. -/
def Models.select (ms : List ModelM) (c : SelectCond) : List ModelM :=
  maskSelect ms (selection_mask ms c)

/-- Elementwise disjunction of two boolean masks (the mask1 | mask2
operation of the tutorial). -/
def orMask (m1 m2 : List Bool) : List Bool :=
  List.zipWith (fun a b => a || b) m1 m2

/-! ## Helper lemmas -/

/-- Zipping two maps of the same list with a binary boolean operation is a
single map of the pointwise combination. -/
theorem zipWith_map_same (h : Bool → Bool → Bool) (f g : ModelM → Bool) :
    ∀ l : List ModelM,
      List.zipWith h (l.map f) (l.map g) = l.map (fun x => h (f x) (g x))
  | [] => rfl
  | a :: l => by
    simp only [List.map_cons, List.zipWith_cons_cons, zipWith_map_same h f g l]

/-- Indexing a collection with the mask obtained by mapping a predicate
over it is the same as filtering with that predicate. -/
theorem maskSelect_map (p : ModelM → Bool) (ms : List ModelM) :
    maskSelect ms (ms.map p) = ms.filter p := by
  induction ms with
  | nil => rfl
  | cons m ms ih =>
    simp only [List.map_cons, maskSelect, List.zip_cons_cons, List.filter_cons]
    cases h : p m
    · simp only [h, Bool.false_eq_true, if_false]
      exact ih
    · simp only [h, if_true, List.map_cons]
      exact congrArg (m :: ·) ih

/-- The selection mask of a condition is the map of the combined
per-condition predicate. -/
theorem selection_mask_eq_map (ms : List ModelM) (c : SelectCond) :
    selection_mask ms c = ms.map (fun m => modelMatches m c) := by
  unfold selection_mask modelMatches
  exact zipWith_map_same _ _ _ ms

/-! ## Claim theorems -/

set_option maxHeartbeats 1600000 in
/-- C1: every one of the seven shown operations (reading a file path into
a data store, creating an empty map dataset from a geometry, running a
maker to fill the maps, running a safe-mask maker, running a background
maker, running a fit on flux points, serializing model collections) has a
call site that is a single call into a module of the external library, and
no supplied code block defines a callable of its own, so no local
implementation of any of these operations is present. -/
theorem c1_shown_operations_single_library_calls :
    (operations.all (fun op =>
        apiCallSites.any (fun s => s.op == op &&
          externalLibraryModules.contains s.library))) = true ∧
    (codeBlocks.all (fun b => !definesCallable b)) = true := by
  exact ⟨by decide, by decide⟩

set_option maxHeartbeats 1600000 in
/-- C2 counterexample: the supplied code consumes the file
iso_P8R2_SOURCE_V6_v06.txt through create_fermi_isotropic_diffuse_model in
the model-management tutorial, and that file is a plain-text table, not a
FITS-based or YAML-based file, so the claim that no other consumed file
format appears is false. -/
theorem c2_counterexample_iso_diffuse_txt :
    isoDiffuseTxtPath ∈ consumedFilePaths ∧
      claimedFormatOK isoDiffuseTxtPath = false ∧
      (consumedFilePaths.all claimedFormatOK) = false := by
  exact ⟨by decide, by decide, by decide⟩

set_option maxHeartbeats 1600000 in
/-- C2 amended: every file path consumed by a library call in the supplied
material is FITS-based or YAML-based, except for exactly one plain-text
file, the Fermi isotropic diffuse model spectrum table consumed by
create_fermi_isotropic_diffuse_model. -/
theorem c2_amended_consumed_formats :
    (consumedFilePaths.all (fun p => claimedFormatOK p ||
        (p.format == .plainText &&
          p.consumingCall == "create_fermi_isotropic_diffuse_model"))) = true ∧
    (consumedFilePaths.filter (fun p => p.format == .plainText)) =
      [isoDiffuseTxtPath] := by
  exact ⟨by decide, by decide⟩

set_option maxHeartbeats 1600000 in
/-- C3: the supplied files contain exactly one mention of a
parallel-worker count argument, the n_jobs keyword passed to DatasetsMaker
in the makers tutorial, used as an opaque keyword option, and no code
block contains any other concurrency construct. -/
theorem c3_single_parallelism_mention :
    parallelismMentions.length = 1 ∧
    (parallelismMentions.all (fun m => m.keyword == "n_jobs" &&
        m.callee == "DatasetsMaker" && m.doc == .makersTutorial)) = true ∧
    (codeBlocks.all (fun b => !usesConcurrencyConstruct b)) = true := by
  exact ⟨by decide, by decide, by decide⟩

set_option maxHeartbeats 1600000 in
/-- C4: exactly one FAQ entry of the how-to page shows suppressing a
warning, the entry "Suppress warnings"; the warning type is VerifyWarning,
defined by the third-party module astropy.io.fits.verify, and the
suppression is scoped to a warnings.catch_warnings context. -/
theorem c4_unique_warning_suppression_entry :
    (faqEntries.filter (fun e => e.suppression.isSome)) =
      [⟨"collapseNineteen", "Suppress warnings",
        some ⟨"VerifyWarning", "astropy.io.fits.verify", true⟩⟩] := by
  decide

set_option maxHeartbeats 1600000 in
/-- C5: no code block of the how-to page or of any notebook cell contains
a try/except construct, a raise statement, or any other error-handling or
recovery logic. -/
theorem c5_no_error_handling_constructs :
    (codeBlocks.all (fun b => !hasErrorHandling b)) = true := by
  decide

set_option maxHeartbeats 1600000 in
/-- C6 counterexample: in the how-to entry "Choose units for plotting",
flux points are read from a FITS file and only plotted; they are neither
wrapped in a FluxPointsDataset nor passed to a fitter, so the claim that
wherever flux points appear they are consumed as input of a curve-fitting
call is false. -/
theorem c6_counterexample_howto_plot_only :
    howtoFluxPointsAppearance ∈ fluxPointsAppearances ∧
      claimedFluxPointsUse howtoFluxPointsAppearance = false ∧
      (fluxPointsAppearances.all claimedFluxPointsUse) = false := by
  exact ⟨by decide, by decide, by decide⟩

set_option maxHeartbeats 1600000 in
/-- C6 amended: wherever flux points appear in the supplied material, they
are previously-derived measurements loaded from a catalog or file and
never computed by the supplied code itself, and every appearance that is
passed to the external fitter is wrapped in a FluxPointsDataset. -/
theorem c6_amended_flux_points_consumption :
    (fluxPointsAppearances.all (fun a => a.fromCatalogOrFile &&
        !a.computedLocally &&
        (!a.passedToFitter || a.wrappedInFluxPointsDataset))) = true := by
  decide

set_option maxHeartbeats 1600000 in
/-- C7: every supplied source file is a reStructuredText documentation
page or an example notebook, and no code block of any supplied file
defines a function, class or lambda of its own, so no original algorithm,
data structure, class, or function is defined in the supplied files. -/
theorem c7_all_files_docs_no_original_definitions :
    (sourceFiles.all (fun f => f.kind == .rstDoc || f.kind == .notebook)) = true ∧
    (codeBlocks.all (fun b =>
        !(b.constructs.contains .defFun) &&
        !(b.constructs.contains .defClass) &&
        !(b.constructs.contains .lambdaFun))) = true := by
  exact ⟨by decide, by decide⟩

/-- C8: for every SafeMaskMaker, dataset and observation, running the
maker leaves the counts, exposure, background, psf and edisp components of
the dataset unchanged and only defines its mask_safe attribute. -/
theorem c8_safe_mask_maker_preserves_data :
    ∀ (mk : SafeMaskMakerM) (d : MapDatasetM) (o : ObsM),
      (mk.run d o).counts = d.counts ∧
      (mk.run d o).exposure = d.exposure ∧
      (mk.run d o).background = d.background ∧
      (mk.run d o).psf = d.psf ∧
      (mk.run d o).edisp = d.edisp ∧
      (mk.run d o).mask_safe = some (mk.mask d o) :=
  fun _ _ _ => ⟨rfl, rfl, rfl, rfl, rfl, rfl⟩

/-- C9: with the fit statistic S = -2 log L, the difference of the
statistic values of two model hypotheses equals the likelihood-ratio test
statistic, TS = S_0 - S_1 = -2 log (L_0 / L_1). -/
theorem c9_stat_sum_ts_difference (L0 L1 : ℝ) (h0 : 0 < L0) (h1 : 0 < L1) :
    stat_sum L0 - stat_sum L1 = -2 * Real.log (L0 / L1) := by
  unfold stat_sum
  rw [Real.log_div (ne_of_gt h0) (ne_of_gt h1)]
  ring

/-- Witness for C9 at the concrete likelihood values 2 and 1. -/
theorem c9_stat_sum_ts_difference_witness :
    0 < (2 : ℝ) ∧ 0 < (1 : ℝ) ∧
      stat_sum 2 - stat_sum 1 = -2 * Real.log (2 / 1) :=
  ⟨by norm_num, by norm_num,
    c9_stat_sum_ts_difference 2 1 (by norm_num) (by norm_num)⟩

/-- C10: Models.select with several conditions returns exactly the models
satisfying all the conditions simultaneously (the conditions combine with
AND), and indexing the collection with the elementwise disjunction of the
selection masks of two conditions returns exactly the models satisfying
either condition (an OR combination). -/
theorem c10_select_and_or_semantics :
    (∀ (ms : List ModelM) (c : SelectCond),
        Models.select ms c =
          ms.filter (fun m => matchesDatasets m c.datasets_names &&
            matchesNameSub m c.name_substring)) ∧
    (∀ (ms : List ModelM) (c1 c2 : SelectCond),
        maskSelect ms (orMask (selection_mask ms c1) (selection_mask ms c2)) =
          ms.filter (fun m => modelMatches m c1 || modelMatches m c2)) := by
  constructor
  · intro ms c
    unfold Models.select
    rw [selection_mask_eq_map]
    exact maskSelect_map _ ms
  · intro ms c1 c2
    rw [selection_mask_eq_map, selection_mask_eq_map]
    unfold orMask
    rw [zipWith_map_same]
    exact maskSelect_map _ ms

end GammapyDocs
